import Mathlib

/-!
Verification of the simpcli command line framework: command registration,
dispatch, result normalization and logging configuration, embedded from
src/simpcli/__init__.py and exercised on the commands of
src/examples/basic.py.
-/

namespace SimpCLI

/-- Python logging level DEBUG (10). -/
def DEBUG : Nat := 10

/-- Python logging level INFO (20). -/
def INFO : Nat := 20

/-- Python logging level ERROR (40). -/
def ERROR : Nat := 40

/-- Result type of the framework (source line 36): an int exit code or a
string message. -/
inductive Result where
  | code (n : Int)
  | msg (s : String)
deriving DecidableEq

/-- Python exceptions relevant to Manager.run: SystemExit raised by the
argparse backend, ValueError raised during command resolution, and any
other fault raised while dispatching (missing attributes, faults inside a
command body, and so on). -/
inductive PyExc where
  | systemExit
  | valueError (msg : String)
  | otherExc (info : String)
deriving DecidableEq

/-- Primitive parameter type tags handled by the parser adapter. -/
inductive PType where
  | str
  | int
  | bool
deriving DecidableEq

/-- Values produced by argument coercion and stored in the parsed argument
dictionary. -/
inductive Value where
  | vstr (s : String)
  | vint (n : Int)
  | vbool (b : Bool)
deriving DecidableEq

/-- Python truthiness of a Value, as used by the check on the popped
verbose entry at source line 121. -/
def Value.truthy : Value → Bool
  | Value.vstr s => decide (s ≠ "")
  | Value.vint n => decide (n ≠ 0)
  | Value.vbool b => b

/-- Rendering of a Value into an error message. -/
def Value.display : Value → String
  | Value.vstr s => s
  | Value.vint n => toString n
  | Value.vbool b => toString b

/-- Descriptor for one command parameter: its name and declared type. -/
structure ParamSpec where
  name : String
  declaredType : PType
deriving DecidableEq

/-- A Python function as the framework sees it: its dunder name, its
reflected signature, and its body, which receives the parsed argument
dictionary and either returns a Result or raises. -/
structure Func where
  name : String
  params : List ParamSpec
  run : List (String × Value) → Except PyExc Result

/-- The Manager dataclass (source lines 83 to 151): it owns the mapping
from command name to command object. -/
structure Manager where
  commands : List (String × Func)

/-- A log record emitted by the framework logger: severity level and
whether it carries exception trace information. -/
structure LogEntry where
  level : Nat
  hasTrace : Bool
deriving DecidableEq

/-- Observable outcome of one Manager.run call: the returned Result, the
error records emitted by the framework logger during the call, and the
level of the console handler after the call. -/
structure RunOutcome where
  result : Result
  errorLogs : List LogEntry
  consoleLevel : Nat
deriving DecidableEq

/-- Association list lookup with string keys, the model of dict.get. -/
def alistGet {β : Type} (k : String) : List (String × β) → Option β
  | [] => none
  | (k2, v) :: rest => if k2 = k then some v else alistGet k rest

/-- Removal of a key from the parsed argument dictionary, the model of
dict.pop. -/
def dictPop (k : String) : List (String × Value) → List (String × Value)
  | [] => []
  | (k2, v) :: rest => if k2 = k then dictPop k rest else (k2, v) :: dictPop k rest

/-- Numeric value of a digit string, accumulator form. -/
def digitsAux : List Char → Nat → Option Nat
  | [], acc => some acc
  | c :: rest, acc =>
    if c.isDigit then digitsAux rest (acc * 10 + (c.toNat - 48)) else none

/-- Model of the int constructor applied to a command line token: an
optional minus sign followed by at least one digit yields an integer,
anything else fails. -/
def pyInt? (s : String) : Option Int :=
  match s.data with
  | [] => none
  | ['-'] => none
  | '-' :: rest => (digitsAux rest 0).map (fun n => -(n : Int))
  | l => (digitsAux l 0).map (fun n => (n : Int))

/-- Modelled from the spec: Manager.create_parser is absent from src, so
the coercion rules of section 4.3 are modelled here. Integer parameters
fail on non numeric text, boolean parameters accept only a closed set of
literal tokens, all others pass through as text; a coercion failure is an
argparse error, hence SystemExit. -/
def coerceValue : PType → String → Except PyExc Value
  | PType.str, t => Except.ok (Value.vstr t)
  | PType.int, t =>
    match pyInt? t with
    | some n => Except.ok (Value.vint n)
    | none => Except.error PyExc.systemExit
  | PType.bool, t =>
    if t = "true" ∨ t = "yes" ∨ t = "1" then Except.ok (Value.vbool true)
    else if t = "false" ∨ t = "no" ∨ t = "0" then Except.ok (Value.vbool false)
    else Except.error PyExc.systemExit

/-- Modelled from the spec: positional binding of raw tokens against the
parameter descriptors of the selected command, in declaration order; a
missing or surplus token is an argparse error, hence SystemExit. -/
def bindParams : List ParamSpec → List String → Except PyExc (List (String × Value))
  | [], [] => Except.ok []
  | [], _ :: _ => Except.error PyExc.systemExit
  | _ :: _, [] => Except.error PyExc.systemExit
  | p :: ps, t :: ts =>
    match coerceValue p.declaredType t, bindParams ps ts with
    | Except.ok v, Except.ok rest => Except.ok ((p.name, v) :: rest)
    | Except.error e, _ => Except.error e
    | _, Except.error e => Except.error e

/-- Modelled from the spec: the reserved global verbose flag is recognized
anywhere on the command line. -/
def hasVerboseFlag : List String → Bool
  | [] => false
  | a :: rest => if a = "--verbose" then true else hasVerboseFlag rest

/-- Modelled from the spec: the argument vector with every occurrence of
the reserved verbose flag consumed by the parser. -/
def stripVerboseFlag : List String → List String
  | [] => []
  | a :: rest =>
    if a = "--verbose" then stripVerboseFlag rest else a :: stripVerboseFlag rest

/-- Modelled from the spec: Manager.create_parser together with
ArgumentParser.parse_args is absent from src, so section 4.3 is modelled.
One sub parser exists per registered command; the chosen command name is
stored under the key command and the verbose flag under the key verbose,
exactly as the dict built from the parsed namespace at source line 119; an
unknown command or a binding failure is an argparse error, hence
SystemExit. -/
def parse_args (cmds : List (String × Func)) (args : List String) :
    Except PyExc (List (String × Value)) :=
  let verbose := hasVerboseFlag args
  match stripVerboseFlag args with
  | [] => Except.ok [("verbose", Value.vbool verbose)]
  | name :: rest =>
    match alistGet name cmds with
    | none => Except.error PyExc.systemExit
    | some c =>
      match bindParams c.params rest with
      | Except.error e => Except.error e
      | Except.ok bound =>
        Except.ok (("command", Value.vstr name) :: ("verbose", Value.vbool verbose) :: bound)

/-- Lookup of the popped command value in the command mapping: only a
string key can hit an entry, the model of self.commands.get at source
line 140. -/
def commandLookup (v : Value) (cmds : List (String × Func)) : Option Func :=
  match v with
  | Value.vstr s => alistGet s cmds
  | _ => none

/-- The private helper handling the command (source lines 134 to 145): pop
the command name, raising ValueError when it is missing or unknown,
otherwise invoke the stored command with the remaining parsed arguments. -/
def Manager.handle_command (m : Manager) (parsed : List (String × Value)) :
    Except PyExc Result :=
  match alistGet "command" parsed with
  | none => Except.error (PyExc.valueError "No command provided.")
  | some v =>
    match commandLookup v m.commands with
    | none => Except.error (PyExc.valueError ("Unknown Command: " ++ v.display))
    | some c => c.run (dictPop "command" parsed)

/-- The parameter decorator (source lines 95 to 97): it returns its
argument unchanged and does nothing else. -/
def Manager.parameter (m : Manager) {α : Type} (x : α) : α := x

/-- The command decorator (source lines 99 to 106): it reflects the
signature of the function and returns the function; it never writes to
the command mapping, so the Manager state is returned unchanged. -/
def Manager.command (m : Manager) (f : Func) : Func × Manager :=
  let _signature := f.params
  (f, m)

/-- Manager.run (source lines 108 to 132): parse the arguments, pop the
verbose flag and lower the console handler to DEBUG when it is truthy,
then handle the command; SystemExit raised anywhere inside the try block
becomes Result 10, any other fault is logged once at error severity with
trace information and becomes Result negative one. The console handler
level before the call is passed in as consoleLevel. -/
def Manager.run (m : Manager) (consoleLevel : Nat) (args : List String) : RunOutcome :=
  match parse_args m.commands args with
  | Except.error PyExc.systemExit => ⟨Result.code 10, [], consoleLevel⟩
  | Except.error _ => ⟨Result.code (-1), [⟨ERROR, true⟩], consoleLevel⟩
  | Except.ok parsed =>
    let verbose := match alistGet "verbose" parsed with
      | none => false
      | some v => v.truthy
    let lvl := if verbose then DEBUG else consoleLevel
    match m.handle_command (dictPop "verbose" parsed) with
    | Except.ok r => ⟨r, [], lvl⟩
    | Except.error PyExc.systemExit => ⟨Result.code 10, [], lvl⟩
    | Except.error _ => ⟨Result.code (-1), [⟨ERROR, true⟩], lvl⟩

/-- Truthiness of the popped verbose entry, named so theorems can refer to
the flag value seen by run. -/
def getVerbose (parsed : List (String × Value)) : Bool :=
  match alistGet "verbose" parsed with
  | none => false
  | some v => v.truthy

/-- Logging handlers (source lines 38 to 47 and 64 to 80). -/
inductive Handler where
  | console (level : Nat)
  | rotatingFile (path : String) (backupCount : Nat) (level : Nat)
  | custom (id : Nat)
deriving DecidableEq

/-- The module level console handler, a stream handler at level INFO
(source lines 40 to 42). -/
def logger_handler : Handler := Handler.console 20

/-- The set_logger_file function (source lines 64 to 80): with neither a
file nor a handler it raises ValueError; with only a file it builds a
timed rotating file handler with seven backups at level INFO; otherwise
the supplied handler is used. The resulting handler list of the logger is
returned. -/
def set_logger_file (file : Option String) (handler : Option Handler) :
    Except String (List Handler) :=
  match file, handler with
  | none, none => Except.error "Must supply either a file or a handler."
  | some f, none => Except.ok [logger_handler, Handler.rotatingFile f 7 20]
  | none, some h => Except.ok [logger_handler, h]
  | some _, some h => Except.ok [logger_handler, h]

/-- The no_args command of src/examples/basic.py lines 13 to 16: a zero
parameter function returning 0. -/
def no_args : Func :=
  { name := "no_args", params := [], run := fun _ => Except.ok (Result.code 0) }

/-- The positional_args command of src/examples/basic.py lines 19 to 24: a
two parameter function, one of type str and two of type int, returning 0. -/
def positional_args : Func :=
  { name := "positional_args"
    params := [⟨"one", PType.str⟩, ⟨"two", PType.int⟩]
    run := fun _ => Except.ok (Result.code 0) }

/-- The manager of src/examples/basic.py after the command decorator has
been applied to no_args. -/
def basicManager : Manager := ((Manager.mk []).command no_args).2

/-- The manager of src/examples/basic.py after the decorators on
positional_args have also run. -/
def basicManager2 : Manager := (basicManager.command positional_args).2

/-- A command whose body raises an arbitrary fault, for exercising fault
containment. -/
def boomFunc : Func :=
  { name := "boom", params := [], run := fun _ => Except.error (PyExc.otherExc "crash") }

/-- A manager whose mapping holds the raising command under the name
boom. -/
def boomManager : Manager := ⟨[("boom", boomFunc)]⟩

theorem alistGet_dictPop_self (k : String) (d : List (String × Value)) :
    alistGet k (dictPop k d) = none := by
  induction d with
  | nil => rfl
  | cons hd tl ih =>
    obtain ⟨k2, v⟩ := hd
    by_cases h : k2 = k <;> simp [dictPop, alistGet, h, ih]

theorem alistGet_dictPop_ne (k k2 : String) (h : k ≠ k2) (d : List (String × Value)) :
    alistGet k (dictPop k2 d) = alistGet k d := by
  induction d with
  | nil => rfl
  | cons hd tl ih =>
    obtain ⟨k3, v⟩ := hd
    have hsym : k2 ≠ k := Ne.symm h
    by_cases h3 : k3 = k2
    · simp [dictPop, alistGet, h3, hsym, ih]
    · by_cases h3k : k3 = k <;> simp [dictPop, alistGet, h3, h3k, h, ih]

/-- C1: Manager.run is total over every manager, every console level and
every argument vector, whatever the command bodies do: its result is the
reserved parse error code 10, or the sentinel fault code negative one, or
the Result returned cleanly by the dispatched command; no exception
reaches the caller. -/
theorem run_total_result (m : Manager) (lvl : Nat) (args : List String) :
    (m.run lvl args).result = Result.code 10 ∨
    (m.run lvl args).result = Result.code (-1) ∨
    ∃ parsed r, parse_args m.commands args = Except.ok parsed ∧
      m.handle_command (dictPop "verbose" parsed) = Except.ok r ∧
      (m.run lvl args).result = r := by
  unfold Manager.run
  rcases h : parse_args m.commands args with e | parsed
  · cases e <;> simp
  · rcases h2 : m.handle_command (dictPop "verbose" parsed) with e2 | r
    · cases e2 <;> simp [h2]
    · exact Or.inr (Or.inr ⟨parsed, r, rfl, h2, by simp [h2]⟩)

/-- C2: the claim says run with the token no-args on the manager of basic
example yields Result 0; on the code the command decorator never inserts
no_args into the command mapping, so the mapping is empty and the call
yields the parse error code 10 instead (as actually written the call even
yields negative one, create_parser being undefined). -/
theorem run_no_args_example :
    basicManager.commands = [] ∧
    basicManager.run 20 ["no-args"] = ⟨Result.code 10, [], 20⟩ := by
  exact ⟨rfl, by decide⟩

/-- C3: the claim says a colliding second registration raises
DuplicateCommandError; on the code Manager.command never writes to the
command mapping and cannot raise such an error (no exception of that name
exists in the codebase): applying the decorator twice to the same named
function returns normally both times and the mapping stays empty. -/
theorem command_duplicate_no_error :
    ((((Manager.mk []).command no_args).2.command no_args).2.commands = []) ∧
    ((((Manager.mk []).command no_args).2.command no_args).1 = no_args) :=
  ⟨rfl, rfl⟩

/-- C4: run with no arguments, or with an argument vector whose first non
verbose token names no registered command, yields the sentinel result
negative one or the reserved parse error result 10, and never raises. -/
theorem run_empty_or_unknown (m : Manager) (lvl : Nat) (args : List String)
    (h : stripVerboseFlag args = [] ∨
      ∃ name rest, stripVerboseFlag args = name :: rest ∧
        alistGet name m.commands = none) :
    (m.run lvl args).result = Result.code (-1) ∨
    (m.run lvl args).result = Result.code 10 := by
  unfold Manager.run parse_args
  rcases h with h | ⟨name, rest, h, hn⟩
  · simp [h, Manager.handle_command, alistGet, dictPop]
  · simp [h, hn]

theorem run_empty_or_unknown_witness :
    ((Manager.mk []).run 20 ["nope"]).result = Result.code (-1) ∨
    ((Manager.mk []).run 20 ["nope"]).result = Result.code 10 :=
  run_empty_or_unknown (Manager.mk []) 20 ["nope"]
    (Or.inr ⟨"nope", [], rfl, rfl⟩)

/-- C5: when a registered zero parameter command is selected and its body
raises an arbitrary non SystemExit fault, run returns the sentinel result
negative one with exactly one error severity log entry carrying trace
information, and the fault does not propagate. -/
theorem run_fault_contained (m : Manager) (lvl : Nat) (name : String)
    (c : Func) (e : PyExc)
    (hn : name ≠ "--verbose")
    (hc : alistGet name m.commands = some c)
    (hp : c.params = [])
    (he : e ≠ PyExc.systemExit)
    (hrun : c.run [] = Except.error e) :
    m.run lvl [name] = ⟨Result.code (-1), [⟨ERROR, true⟩], lvl⟩ := by
  unfold Manager.run parse_args
  simp [stripVerboseFlag, hasVerboseFlag, hn, hc, hp, bindParams]
  simp [Manager.handle_command, alistGet, dictPop, commandLookup, hc, hrun]
  cases e with
  | systemExit => exact absurd rfl he
  | valueError msg => simp [Value.truthy, getVerbose]
  | otherExc info => simp [Value.truthy, getVerbose]

theorem run_fault_contained_witness :
    boomManager.run 20 ["boom"] = ⟨Result.code (-1), [⟨ERROR, true⟩], 20⟩ :=
  run_fault_contained boomManager 20 "boom" boomFunc (PyExc.otherExc "crash")
    (by decide) rfl rfl (by decide) rfl

/-- C6: the claim says run with tokens positional-args hello 5 binds the
parameters and returns the result of the callable, 0, and that the token
notanumber makes coercion fail with code 10; on the code the parameter
decorator applied to the string one makes the example crash at import
time, and Manager.command never registers anything, so both invocations
hit an unknown command and yield 10, never the result of the callable. -/
theorem run_positional_args_example :
    basicManager2.run 20 ["positional-args", "hello", "5"] = ⟨Result.code 10, [], 20⟩ ∧
    basicManager2.run 20 ["positional-args", "hello", "notanumber"] = ⟨Result.code 10, [], 20⟩ := by
  exact ⟨by decide, by decide⟩

/-- C7: the command decorator returns the original callable itself,
unchanged and unwrapped, so it remains directly callable. -/
theorem command_returns_original (m : Manager) (f : Func) :
    (m.command f).1 = f := rfl

/-- C8 counterexample: the claim says the file argument and the handler
argument of set_logger_file are mutually exclusive, but supplying both at
once is accepted without error, the handler winning. -/
theorem set_logger_file_both_supplied_ok :
    set_logger_file (some "app.log") (some (Handler.custom 0)) =
      Except.ok [logger_handler, Handler.custom 0] := rfl

/-- C8 amended: set_logger_file accepts a file path or a pre built
handler; with neither it raises ValueError; the two are not mutually
exclusive: with both supplied the handler is used and the file path is
ignored, without error. -/
theorem set_logger_file_cases :
    set_logger_file none none = Except.error "Must supply either a file or a handler." ∧
    (∀ f, set_logger_file (some f) none =
      Except.ok [logger_handler, Handler.rotatingFile f 7 20]) ∧
    (∀ h, set_logger_file none (some h) = Except.ok [logger_handler, h]) ∧
    (∀ f h, set_logger_file (some f) (some h) = Except.ok [logger_handler, h]) :=
  ⟨rfl, fun _ => rfl, fun _ => rfl, fun _ _ => rfl⟩

/-- C9: whenever parsing succeeds, the dictionary handed to the command
callable (the parsed arguments with the verbose and command keys popped)
holds no verbose entry, and when the popped verbose flag is truthy the
console handler level after the run is DEBUG. -/
theorem verbose_consumed_and_debug (m : Manager) (lvl : Nat) (args : List String)
    (parsed : List (String × Value))
    (hp : parse_args m.commands args = Except.ok parsed) :
    alistGet "verbose" (dictPop "command" (dictPop "verbose" parsed)) = none ∧
    (getVerbose parsed = true → (m.run lvl args).consoleLevel = DEBUG) := by
  constructor
  · rw [alistGet_dictPop_ne "verbose" "command" (by decide),
      alistGet_dictPop_self]
  · intro hv
    unfold Manager.run
    rw [hp]
    have hv2 : (match alistGet "verbose" parsed with
        | none => false
        | some v => v.truthy) = true := by
      have := hv
      unfold getVerbose at this
      exact this
    rcases h2 : m.handle_command (dictPop "verbose" parsed) with e2 | r
    · cases e2 <;> simp [h2, hv2]
    · simp [h2, hv2]

theorem verbose_consumed_and_debug_witness :
    alistGet "verbose"
      (dictPop "command" (dictPop "verbose" [("verbose", Value.vbool true)])) = none ∧
    ((Manager.mk []).run 20 ["--verbose"]).consoleLevel = DEBUG :=
  ⟨(verbose_consumed_and_debug (Manager.mk []) 20 ["--verbose"]
      [("verbose", Value.vbool true)] rfl).1,
    (verbose_consumed_and_debug (Manager.mk []) 20 ["--verbose"]
      [("verbose", Value.vbool true)] rfl).2 rfl⟩

/-- C10: the parameter decorator is the identity on every value, callable
or not, with no other effect; in particular applied to the string one it
returns that string, which the example then applies to the decorated
function in place of a decorator. -/
theorem parameter_identity (m : Manager) {α : Type} (x : α) :
    m.parameter x = x ∧ m.parameter "one" = "one" := ⟨rfl, rfl⟩

end SimpCLI
